import Mathlib

/-!
Shallow embedding of the rocSOLVER `larfg` test harness
(`src/clients/include/testing_larfg.hpp`) and verification of the
specification's claims about it.

Numeric buffer elements are modelled as exact rationals (`ℚ`); the device
routine under test and the host reference `cblas_larfg` are opaque
collaborators, modelled as function parameters. Control flow of the harness
is modelled as an event trace, mirroring the C++ statement order.
-/

namespace RocsolverLarfgTest

/-- Status codes returned by rocBLAS/rocSOLVER calls, as used by the
test harness (`rocblas_status_*`). -/
inductive RocblasStatus where
  | success
  | invalid_handle
  | invalid_pointer
  | invalid_size
  | internal_error
deriving DecidableEq, Repr

/-- The three outputs of a `larfg` routine (device or host reference):
the scalar `alpha`, the vector `x` and the scalar `tau`. -/
structure LarfgOut where
  alpha : ℚ
  x : List ℚ
  tau : ℚ
deriving DecidableEq, Repr

/-- A device-side `larfg` implementation: given `n`, the device contents of
`alpha`, `x` and the increment `inc`, it returns a status together with the
new device contents of `alpha`, `x`, `tau`. Opaque collaborator. -/
def DevLarfg : Type := Int → ℚ → List ℚ → Int → RocblasStatus × LarfgOut

/-- A host-reference `larfg` implementation (`cblas_larfg`): mutates
`alpha`, `x`, `tau` in place; modelled as returning the new values.
Opaque collaborator. -/
def HostLarfg : Type := Int → ℚ → List ℚ → Int → LarfgOut

/-- Host-side buffers of the `larfg` test case: scalar `ha`, input/reference
vector `hx`, device-result vector `hxr`, scalar `ht`. -/
structure HostState where
  ha : ℚ
  hx : List ℚ
  hxr : List ℚ
  ht : ℚ
deriving DecidableEq, Repr

/-- Device-side buffers of the `larfg` test case. -/
structure DeviceState where
  da : ℚ
  dx : List ℚ
  dt : ℚ
deriving DecidableEq, Repr

/-- Embedding of `larfg_initData<CPU, GPU>`: when `CPU` is set, fill the
host buffers `ha`, `hx` with the pseudo-random draw (`rocblas_init`);
when `GPU` is set, mirror the current host contents to the device
(`da.transfer_from(ha)`, `dx.transfer_from(hx)`). -/
def larfg_initData (CPU GPU : Bool) (randA : ℚ) (randX : List ℚ)
    (h : HostState) (d : DeviceState) : HostState × DeviceState :=
  let h1 := if CPU then { h with ha := randA, hx := randX } else h
  let d1 := if GPU then { d with da := h1.ha, dx := h1.hx } else d
  (h1, d1)

/-- Modelled from the spec: `norm_error` (from `norm.hpp`, not under `src/`)
with norm tag one-norm, applied to an `M × N` matrix difference stored with
leading dimension `lda`: the maximum over columns of the column sums of
absolute differences. Out-of-range reads default to `0`. -/
def norm_error_one (M N lda : ℕ) (a b : List ℚ) : ℚ :=
  ((List.range N).map
    (fun j => ((List.range M).map
      (fun i => |a.getD (i + j * lda) 0 - b.getD (i + j * lda) 0|)).sum)).foldl max 0

/-- Modelled from the spec: the infinity / maximum-absolute-difference norm
the spec prescribes for strided vector buffers — the maximum over the `k`
logical elements (at stride `inc`) of the absolute difference. -/
def infNormDiff (k inc : ℕ) (a b : List ℚ) : ℚ :=
  ((List.range k).map (fun j => |a.getD (j * inc) 0 - b.getD (j * inc) 0|)).foldl max 0

/-- Embedding of `larfg_getError`: initialize data (generate on host and
mirror to device), invoke the device routine (status checked by
`CHECK_ROCBLAS_ERROR`, aborting the case on a non-success status), copy the
device output vector back into `hxr`, run the host reference in place on
`ha`, `hx`, `ht`, and compute `max_err = norm_error('O', 1, n-1, inc, hx, hxr)`.
Returns the final host state, the final device state and `max_err`. -/
def larfg_getError (dev : DevLarfg) (cblas : HostLarfg) (n inc : Int)
    (randA : ℚ) (randX : List ℚ) (h0 : HostState) (d0 : DeviceState) :
    Except RocblasStatus (HostState × DeviceState × ℚ) :=
  let hd1 := larfg_initData true true randA randX h0 d0
  let h1 := hd1.1
  let d1 := hd1.2
  let call := dev n d1.da d1.dx inc
  if call.1 ≠ RocblasStatus.success then
    Except.error call.1
  else
    let d2 : DeviceState := ⟨call.2.alpha, call.2.x, call.2.tau⟩
    let h2 := { h1 with hxr := d2.dx }
    let ref := cblas n h2.ha h2.hx inc
    let h3 := { h2 with ha := ref.alpha, hx := ref.x, ht := ref.tau }
    Except.ok (h3, d2, norm_error_one 1 (n - 1).toNat inc.toNat h3.hx h3.hxr)

/-- Events observable during `larfg_getPerfData`: data (re-)initializations
with their `CPU`/`GPU` flags, the host reference call, device routine
invocations (whether inside the timed hot loop, and whether the returned
status is checked by `CHECK_ROCBLAS_ERROR`), and the profile-logging setup. -/
inductive PerfEvent where
  | initData (CPU GPU : Bool)
  | hostCall
  | deviceCall (timed checked : Bool)
  | profileSetup
deriving DecidableEq, Repr

/-- Outcome of `larfg_getPerfData`: either the test case was aborted by
`CHECK_ROCBLAS_ERROR` on a non-success status, or the run completed and
reported a mean device time (`none` models an IEEE division that does not
produce a well-defined finite quotient, see `ieeeDiv`). -/
inductive PerfResult where
  | aborted (s : RocblasStatus)
  | completed (gpuTime : Option ℚ)
deriving DecidableEq, Repr

/-- Models IEEE double division as used for `*gpu_time_used /= hot_calls`:
when the divisor is `0` the quotient is NaN or ±infinity (never a
well-defined finite duration), modelled as `none`. -/
def ieeeDiv (a b : ℚ) : Option ℚ :=
  if b = 0 then none else some (a / b)

/-- The events of one cold-call (warm-up) iteration of `larfg_getPerfData`:
a device re-mirror (`larfg_initData<false, true>`) followed by a checked,
untimed device invocation. -/
def coldIter : List PerfEvent :=
  [PerfEvent.initData false true, PerfEvent.deviceCall false true]

/-- The hot-call loop of `larfg_getPerfData`: each iteration re-mirrors data
to the device, then times one device invocation whose returned status is
discarded (no `CHECK_ROCBLAS_ERROR`). Returns the events and the sum of the
per-call elapsed times; `elapsed i` is the elapsed time of hot iteration `i`. -/
def larfg_perfHotCalls (elapsed : ℕ → ℚ) : ℕ → ℕ → List PerfEvent × ℚ
  | 0, _ => ([], 0)
  | m + 1, i =>
    let rest := larfg_perfHotCalls elapsed m (i + 1)
    (PerfEvent.initData false true :: PerfEvent.deviceCall true false :: rest.1,
      elapsed i + rest.2)

/-- Embedding of `larfg_getPerfData`: when not in pure-performance mode,
generate data and time the host reference; then regenerate on the host, run
the 2 checked cold calls (the `for(iter = 0; iter < 2; iter++)` loop,
unrolled; each iteration re-mirrors data to the device, and
`CHECK_ROCBLAS_ERROR` aborts the case on a non-success status), optionally
set up profile logging, run `hot_calls` timed, unchecked hot calls (each
preceded by a device re-mirror), accumulate their elapsed times into
`gpu0` (the caller's initial `gpu_time_used`) and divide by `hot_calls`.
`devStatus k` is the status returned by the `k`-th device invocation. -/
def larfg_getPerfData (hot_calls : Int) (profile : Int) (perf : Bool)
    (devStatus : ℕ → RocblasStatus) (elapsed : ℕ → ℚ) (gpu0 : ℚ) :
    List PerfEvent × PerfResult :=
  let pre := if perf then [] else [PerfEvent.initData true false, PerfEvent.hostCall]
  let pre := pre ++ [PerfEvent.initData true false]
  if devStatus 0 ≠ RocblasStatus.success then
    (pre ++ coldIter, PerfResult.aborted (devStatus 0))
  else if devStatus 1 ≠ RocblasStatus.success then
    (pre ++ coldIter ++ coldIter, PerfResult.aborted (devStatus 1))
  else
    let prof := if profile > 0 then [PerfEvent.profileSetup] else []
    let hot := larfg_perfHotCalls elapsed hot_calls.toNat 0
    (pre ++ coldIter ++ coldIter ++ prof ++ hot.1,
      PerfResult.completed (ieeeDiv (gpu0 + hot.2) (hot_calls : ℚ)))

/-- The subset of `Arguments` consumed by `testing_larfg`: the problem
size `n`, the increment `incx`, the hot-call count `iters`, and the mode
flags. -/
structure Arguments where
  n : Int
  incx : Int
  iters : Int
  unit_check : Bool
  norm_check : Bool
  timing : Bool
  perf : Bool
  mem_query : Bool
deriving DecidableEq, Repr

/-- Events observable during `testing_larfg`. `expectDevice` records an
`EXPECT_ROCBLAS_STATUS(rocsolver_larfg(...), expected)` assertion together
with the arguments passed (nullness of the handle and of the three buffer
pointers, plus `n` and `inc`); `alloc` records the host/device buffer
allocations with the computed sizes; `getErrorCall` and `getPerfDataCall`
mark entry into the correctness and performance phases. -/
inductive TestEvent where
  | expectDevice (handleNull : Bool) (n : Int) (alphaNull xNull : Bool)
      (inc : Int) (tauNull : Bool) (expected : RocblasStatus)
  | benchInformInvalidSize
  | benchInformQuickReturn
  | memQuery
  | memQueryReport
  | alloc (size_x stx size_xr stxr : Int)
  | getErrorCall (n inc : Int)
  | getPerfDataCall (hot_calls : Int) (perf : Bool)
  | unitCheck (tolSize : Int)
  | benchOutput
deriving DecidableEq, Repr

/-- Embedding of the control flow of `testing_larfg` as the list of events
it performs, in C++ statement order: invalid-size early return, memory-size
query (run when `mem_query` is set or `USE_ROCBLAS_REALLOC_ON_DEMAND` is
off, with early return in query mode), buffer allocation, quick-return
early return for `n == 0`, then the correctness, performance, unit-check
and bench-output phases guarded by their mode flags. -/
def testing_larfg (argus : Arguments) (reallocOnDemand : Bool) : List TestEvent :=
  let n := argus.n
  let inc := argus.incx
  let hot_calls := argus.iters
  let size_x : Int := if n > 1 then n - 1 else 1
  let stx := size_x * inc
  let size_xr := if argus.unit_check || argus.norm_check then size_x else 0
  let stxr := if argus.unit_check || argus.norm_check then stx else 0
  if n < 0 || inc < 1 then
    TestEvent.expectDevice false n true true inc true RocblasStatus.invalid_size ::
      (if argus.timing then [TestEvent.benchInformInvalidSize] else [])
  else
    (if argus.mem_query || !reallocOnDemand then [TestEvent.memQuery] else []) ++
    (if argus.mem_query then [TestEvent.memQueryReport]
     else
      TestEvent.alloc size_x stx size_xr stxr ::
      (if n = 0 then
        TestEvent.expectDevice false n false false inc false RocblasStatus.success ::
          (if argus.timing then [TestEvent.benchInformQuickReturn] else [])
      else
        (if argus.unit_check || argus.norm_check then [TestEvent.getErrorCall n inc] else []) ++
        (if argus.timing then [TestEvent.getPerfDataCall hot_calls argus.perf] else []) ++
        (if argus.unit_check then [TestEvent.unitCheck n] else []) ++
        (if argus.timing then [TestEvent.benchOutput] else [])))

/-- Modelled from the spec: the argument classification of the
`rocsolver_larfg` device routine itself (its implementation is not under
`src/`; only its test callers are). Per the spec: an invalid (null) handle
yields the invalid-handle status; a negative dimension or non-positive
increment yields the invalid-size status; a zero-sized problem quick-returns
success without touching any buffer, even placeholder or null ones;
otherwise a null buffer pointer yields the invalid-pointer status. -/
def rocsolver_larfg_status (handleNull : Bool) (n : Int) (alphaNull xNull : Bool)
    (inc : Int) (tauNull : Bool) : RocblasStatus :=
  if handleNull then RocblasStatus.invalid_handle
  else if n < 0 || inc < 1 then RocblasStatus.invalid_size
  else if n = 0 then RocblasStatus.success
  else if alphaNull || xNull || tauNull then RocblasStatus.invalid_pointer
  else RocblasStatus.success

/-- One `EXPECT_ROCBLAS_STATUS` call of `larfg_checkBadArgs`: the argument
tuple passed to `rocsolver_larfg` (nullness of handle and buffer pointers,
`n`, `inc`) and the expected status. -/
structure BadArgCheck where
  handleNull : Bool
  n : Int
  alphaNull : Bool
  xNull : Bool
  inc : Int
  tauNull : Bool
  expected : RocblasStatus
deriving DecidableEq, Repr

/-- Embedding of `larfg_checkBadArgs`: the list of assertions it performs,
in order — null handle expects invalid-handle; null `alpha`, null `x` and
null `tau` (one at a time) each expect invalid-pointer; and the quick
return with `n = 0` and all buffer pointers null expects success. -/
def larfg_checkBadArgs (n inc : Int) : List BadArgCheck :=
  [⟨true, n, false, false, inc, false, RocblasStatus.invalid_handle⟩,
   ⟨false, n, true, false, inc, false, RocblasStatus.invalid_pointer⟩,
   ⟨false, n, false, true, inc, false, RocblasStatus.invalid_pointer⟩,
   ⟨false, n, false, false, inc, true, RocblasStatus.invalid_pointer⟩,
   ⟨false, 0, true, true, inc, true, RocblasStatus.success⟩]

/-- Embedding of `testing_larfg_bad_arg`: calls `larfg_checkBadArgs` with
the safe arguments `n = 2`, `inc = 1` and capacity-1 device buffers. -/
def testing_larfg_bad_arg : List BadArgCheck :=
  larfg_checkBadArgs 2 1

/-- Whether a `BadArgCheck` assertion passes against a given status
classification of the device routine. -/
def BadArgCheck.passes (c : BadArgCheck) : Bool :=
  rocsolver_larfg_status c.handleNull c.n c.alphaNull c.xNull c.inc c.tauNull == c.expected

/-- Modelled from the spec: the error tolerance used by
`ROCSOLVER_TEST_CHECK(T, max_error, n)` (from `rocsolver_test.hpp`, not
under `src/`): the accepted bound scales as problem size times the working
type's machine epsilon `eps`. -/
def test_tolerance (eps : ℚ) (n : Int) : ℚ :=
  n * eps

/-- Modelled from the spec: the unit check accepts an error value when it is
at most the tolerance for the given size. -/
def unit_check_accepts (eps : ℚ) (n : Int) (err : ℚ) : Prop :=
  err ≤ test_tolerance eps n

/-! ### Helper predicates over event traces -/

/-- Whether a `PerfEvent` is a device invocation. -/
def PerfEvent.isDeviceCall : PerfEvent → Bool
  | PerfEvent.deviceCall _ _ => true
  | _ => false

/-- Whether a `PerfEvent` is a timed (hot-loop) device invocation. -/
def PerfEvent.isTimedDeviceCall : PerfEvent → Bool
  | PerfEvent.deviceCall true _ => true
  | _ => false

/-- Whether a `PerfEvent` is an untimed (cold/warm-up) device invocation. -/
def PerfEvent.isUntimedDeviceCall : PerfEvent → Bool
  | PerfEvent.deviceCall false _ => true
  | _ => false

/-- `true` iff every device invocation in the trace had its returned status
checked (by `CHECK_ROCBLAS_ERROR` or `EXPECT_ROCBLAS_STATUS`). -/
def allDeviceCallsChecked (tr : List PerfEvent) : Bool :=
  tr.all fun e =>
    match e with
    | PerfEvent.deviceCall _ c => c
    | _ => true

/-- `true` iff, in the trace, a device invocation's status is checked
exactly when the invocation is untimed: cold calls checked, hot calls not. -/
def checkedIffUntimed : PerfEvent → Bool
  | PerfEvent.deviceCall timed c => c == !timed
  | _ => true

/-- `true` iff every device invocation in the trace is immediately preceded
by a data re-initialization that mirrors to the device (`GPU` flag set). -/
def mirrorBeforeCallsAux : Option PerfEvent → List PerfEvent → Bool
  | _, [] => true
  | prev, e :: rest =>
    (match e, prev with
     | PerfEvent.deviceCall _ _, some (PerfEvent.initData _ true) => true
     | PerfEvent.deviceCall _ _, _ => false
     | _, _ => true) && mirrorBeforeCallsAux (some e) rest

/-- Entry point of `mirrorBeforeCallsAux`: no event precedes the first. -/
def mirrorBeforeCalls (tr : List PerfEvent) : Bool :=
  mirrorBeforeCallsAux none tr

/-- Whether a `TestEvent` is an `EXPECT_ROCBLAS_STATUS` assertion expecting
the success status from the device routine. -/
def TestEvent.isSuccessAssert : TestEvent → Bool
  | TestEvent.expectDevice _ _ _ _ _ _ RocblasStatus.success => true
  | _ => false

/-- Whether a `TestEvent` is a buffer allocation. -/
def TestEvent.isAlloc : TestEvent → Bool
  | TestEvent.alloc _ _ _ _ => true
  | _ => false

/-- Whether a `TestEvent` belongs to the correctness or performance phases
(entry to `larfg_getError` or `larfg_getPerfData`, the unit check, or the
bench output). -/
def TestEvent.isMeasurement : TestEvent → Bool
  | TestEvent.getErrorCall _ _ => true
  | TestEvent.getPerfDataCall _ _ => true
  | TestEvent.unitCheck _ => true
  | TestEvent.benchOutput => true
  | _ => false

/-! ### Structural lemmas -/

/-- The event trace of the hot loop does not depend on the elapsed times:
it is `hot` repetitions of a device re-mirror followed by a timed,
unchecked device invocation. -/
def hotTrace : ℕ → List PerfEvent
  | 0 => []
  | m + 1 =>
    PerfEvent.initData false true :: PerfEvent.deviceCall true false :: hotTrace m

theorem larfg_perfHotCalls_fst (elapsed : ℕ → ℚ) :
    ∀ m i, (larfg_perfHotCalls elapsed m i).1 = hotTrace m := by
  intro m
  induction m with
  | zero => intro i; rfl
  | succ m ih =>
    intro i
    simp [larfg_perfHotCalls, hotTrace, ih]

theorem larfg_perfHotCalls_snd (elapsed : ℕ → ℚ) :
    ∀ m i, (larfg_perfHotCalls elapsed m i).2 = ∑ j ∈ Finset.range m, elapsed (i + j) := by
  intro m
  induction m with
  | zero => intro i; simp [larfg_perfHotCalls]
  | succ m ih =>
    intro i
    rw [Finset.sum_range_succ']
    simp only [larfg_perfHotCalls, ih, add_zero]
    rw [add_comm (elapsed i)]
    congr 1
    exact Finset.sum_congr rfl fun j _ => congrArg elapsed (by omega)

/-- Every event of the hot-loop trace either is not a device call or is a
timed, unchecked device call. -/
theorem hotTrace_all_checkedIffUntimed :
    ∀ m, (hotTrace m).all checkedIffUntimed = true := by
  intro m
  induction m with
  | zero => rfl
  | succ m ih => simp [hotTrace, checkedIffUntimed, ih]

/-- `acc` is a lower bound of a `foldl max acc`. -/
theorem le_foldl_max (l : List ℚ) : ∀ acc : ℚ, acc ≤ l.foldl max acc := by
  induction l with
  | nil => intro acc; simp
  | cons x l ih =>
    intro acc
    calc acc ≤ max acc x := le_max_left acc x
    _ ≤ l.foldl max (max acc x) := ih (max acc x)

/-- The spec's infinity / max-absolute-difference norm is non-negative. -/
theorem infNormDiff_nonneg (k inc : ℕ) (a b : List ℚ) :
    0 ≤ infNormDiff k inc a b :=
  le_foldl_max _ 0

/-- On a single-row layout, the one-norm computed by `norm_error` coincides
with the spec's infinity / max-absolute-difference norm over the strided
logical elements. -/
theorem norm_error_one_eq_infNormDiff (N lda : ℕ) (a b : List ℚ) :
    norm_error_one 1 N lda a b = infNormDiff N lda a b := by
  have h1 : List.range 1 = [0] := rfl
  simp [norm_error_one, infNormDiff, h1]

/-- Closed-form run of `larfg_getError` when the device call succeeds: the
device output vector lands in `hxr` only, the host reference is applied to
the original initialized `ha`, `hx` (mutating them in place), and the error
is the norm of the difference between `hx` (host result) and `hxr` (device
result). Shared helper for the claims below. -/
theorem larfg_getError_run (dev : DevLarfg) (cblas : HostLarfg) (n inc : Int)
    (a : ℚ) (x : List ℚ) (h0 : HostState) (d0 : DeviceState)
    (hok : (dev n a x inc).1 = RocblasStatus.success) :
    larfg_getError dev cblas n inc a x h0 d0 =
      Except.ok
        ({ ha := (cblas n a x inc).alpha, hx := (cblas n a x inc).x,
           hxr := (dev n a x inc).2.x, ht := (cblas n a x inc).tau },
         ⟨(dev n a x inc).2.alpha, (dev n a x inc).2.x, (dev n a x inc).2.tau⟩,
         norm_error_one 1 (n - 1).toNat inc.toNat
           (cblas n a x inc).x ((dev n a x inc).2.x)) := by
  simp [larfg_getError, larfg_initData, hok]

/-- C3: in `larfg_getError` the device output vector is copied back into the
dedicated result buffer `hxr` only; the original host buffers `ha`, `hx`
are untouched by the device path, so the host reference `cblas_larfg` is
applied to the original initialized values `a`, `x` and mutates `ha`, `hx`,
`ht` in place; at the moment of comparison `hx` holds the host reference
result and `hxr` holds the device result. -/
theorem larfg_getError_device_copy_frame (dev : DevLarfg) (cblas : HostLarfg)
    (n inc : Int) (a : ℚ) (x : List ℚ) (h0 : HostState) (d0 : DeviceState)
    (hok : (dev n a x inc).1 = RocblasStatus.success) :
    larfg_getError dev cblas n inc a x h0 d0 =
      Except.ok
        ({ ha := (cblas n a x inc).alpha, hx := (cblas n a x inc).x,
           hxr := (dev n a x inc).2.x, ht := (cblas n a x inc).tau },
         ⟨(dev n a x inc).2.alpha, (dev n a x inc).2.x, (dev n a x inc).2.tau⟩,
         norm_error_one 1 (n - 1).toNat inc.toNat
           (cblas n a x inc).x ((dev n a x inc).2.x)) :=
  larfg_getError_run dev cblas n inc a x h0 d0 hok

/-- Witness for C3 at a concrete input. -/
theorem larfg_getError_device_copy_frame_witness :
    ((fun (_ : Int) (a : ℚ) (x : List ℚ) (_ : Int) =>
        ((RocblasStatus.success, ⟨a, x, 2⟩) : RocblasStatus × LarfgOut)) 2 5 [7] 1).1
        = RocblasStatus.success ∧
    larfg_getError
        (fun _ a x _ => (RocblasStatus.success, ⟨a, x, 2⟩))
        (fun _ a x _ => ⟨a, x.map (fun v => v + 1), 3⟩) 2 1 5 [7]
        ⟨0, [], [], 0⟩ ⟨0, [], 0⟩ =
      Except.ok (⟨5, [8], [7], 3⟩, ⟨5, [7], 2⟩, norm_error_one 1 1 1 [8] [7]) := by
  refine ⟨rfl, ?_⟩
  have h := larfg_getError_device_copy_frame
      (fun _ a x _ => (RocblasStatus.success, ⟨a, x, 2⟩))
      (fun _ a x _ => ⟨a, x.map (fun v => v + 1), 3⟩) 2 1 5 [7]
      ⟨0, [], [], 0⟩ ⟨0, [], 0⟩ rfl
  norm_num at h
  exact h

/-- C4: for every valid non-empty problem (`n ≥ 1`, `inc ≥ 1`) whose device
call succeeds, the Error Record produced by `larfg_getError` equals the
infinity (max-absolute-difference) norm between the host reference's
transformed vector and the copied-back device vector over the `n - 1`
logical elements with stride `inc`, and it is non-negative (finiteness is
automatic in the exact-rational embedding). -/
theorem larfg_getError_infnorm_err (dev : DevLarfg) (cblas : HostLarfg)
    (n inc : Int) (a : ℚ) (x : List ℚ) (h0 : HostState) (d0 : DeviceState)
    (_hn : 1 ≤ n) (_hinc : 1 ≤ inc)
    (hok : (dev n a x inc).1 = RocblasStatus.success) :
    ∃ hFin dFin,
      larfg_getError dev cblas n inc a x h0 d0 =
        Except.ok (hFin, dFin,
          infNormDiff (n - 1).toNat inc.toNat
            (cblas n a x inc).x ((dev n a x inc).2.x)) ∧
      0 ≤ infNormDiff (n - 1).toNat inc.toNat
            (cblas n a x inc).x ((dev n a x inc).2.x) := by
  have h := larfg_getError_run dev cblas n inc a x h0 d0 hok
  rw [norm_error_one_eq_infNormDiff] at h
  exact ⟨_, _, h, infNormDiff_nonneg _ _ _ _⟩

/-- Witness for C4 at a concrete input. -/
theorem larfg_getError_infnorm_err_witness :
    (1 : Int) ≤ 2 ∧ (1 : Int) ≤ 1 ∧
    ((fun (_ : Int) (a : ℚ) (x : List ℚ) (_ : Int) =>
        ((RocblasStatus.success, ⟨a, x, 2⟩) : RocblasStatus × LarfgOut)) 2 5 [7] 1).1
        = RocblasStatus.success ∧
    (∃ hFin dFin,
      larfg_getError
          (fun _ a x _ => (RocblasStatus.success, ⟨a, x, 2⟩))
          (fun _ a x _ => ⟨a, x.map (fun v => v + 1), 3⟩) 2 1 5 [7]
          ⟨0, [], [], 0⟩ ⟨0, [], 0⟩ =
        Except.ok (hFin, dFin, infNormDiff 1 1 [8] [7]) ∧
      0 ≤ infNormDiff 1 1 [8] [7]) := by
  refine ⟨by norm_num, by norm_num, rfl, ?_⟩
  have h := larfg_getError_infnorm_err
      (fun _ a x _ => (RocblasStatus.success, ⟨a, x, 2⟩))
      (fun _ a x _ => ⟨a, x.map (fun v => v + 1), 3⟩) 2 1 5 [7]
      ⟨0, [], [], 0⟩ ⟨0, [], 0⟩ (by norm_num) (by norm_num) rfl
  norm_num at h
  obtain ⟨⟨hF, dF, heq⟩, hpos⟩ := h
  exact ⟨hF, dF, heq, hpos⟩

/-- C9: the Error Record computed by `larfg_getError` depends only on the
device routine's output vector: two device implementations that produce the
same output vector contents (but arbitrarily different `alpha` and `tau`
outputs) yield an identical Error Record. -/
theorem larfg_getError_err_ignores_alpha_tau (dev1 dev2 : DevLarfg)
    (cblas : HostLarfg) (n inc : Int) (a : ℚ) (x : List ℚ)
    (h0 : HostState) (d0 : DeviceState)
    (hok1 : (dev1 n a x inc).1 = RocblasStatus.success)
    (hok2 : (dev2 n a x inc).1 = RocblasStatus.success)
    (hxeq : (dev1 n a x inc).2.x = (dev2 n a x inc).2.x) :
    (larfg_getError dev1 cblas n inc a x h0 d0).map (fun t => t.2.2) =
      (larfg_getError dev2 cblas n inc a x h0 d0).map (fun t => t.2.2) := by
  rw [larfg_getError_run dev1 cblas n inc a x h0 d0 hok1,
    larfg_getError_run dev2 cblas n inc a x h0 d0 hok2, hxeq]
  rfl

/-- Witness for C9 at a concrete input: two device implementations with the
same output vector but different `alpha` and `tau` outputs. -/
theorem larfg_getError_err_ignores_alpha_tau_witness :
    ((fun (_ : Int) (a : ℚ) (x : List ℚ) (_ : Int) =>
        ((RocblasStatus.success, ⟨a, x, 2⟩) : RocblasStatus × LarfgOut)) 2 5 [7] 1).1
        = RocblasStatus.success ∧
    ((fun (_ : Int) (a : ℚ) (x : List ℚ) (_ : Int) =>
        ((RocblasStatus.success, ⟨a + 9, x, 4⟩) : RocblasStatus × LarfgOut)) 2 5 [7] 1).1
        = RocblasStatus.success ∧
    ((fun (_ : Int) (a : ℚ) (x : List ℚ) (_ : Int) =>
        ((RocblasStatus.success, ⟨a, x, 2⟩) : RocblasStatus × LarfgOut)) 2 5 [7] 1).2.x
      = ((fun (_ : Int) (a : ℚ) (x : List ℚ) (_ : Int) =>
        ((RocblasStatus.success, ⟨a + 9, x, 4⟩) : RocblasStatus × LarfgOut)) 2 5 [7] 1).2.x ∧
    (larfg_getError (fun _ a x _ => (RocblasStatus.success, ⟨a, x, 2⟩))
        (fun _ a x _ => ⟨a, x, 3⟩) 2 1 5 [7] ⟨0, [], [], 0⟩ ⟨0, [], 0⟩).map
          (fun t => t.2.2) =
      (larfg_getError (fun _ a x _ => (RocblasStatus.success, ⟨a + 9, x, 4⟩))
        (fun _ a x _ => ⟨a, x, 3⟩) 2 1 5 [7] ⟨0, [], [], 0⟩ ⟨0, [], 0⟩).map
          (fun t => t.2.2) :=
  ⟨rfl, rfl, rfl,
    larfg_getError_err_ignores_alpha_tau
      (fun _ a x _ => (RocblasStatus.success, ⟨a, x, 2⟩))
      (fun _ a x _ => (RocblasStatus.success, ⟨a + 9, x, 4⟩))
      (fun _ a x _ => ⟨a, x, 3⟩) 2 1 5 [7] ⟨0, [], [], 0⟩ ⟨0, [], 0⟩ rfl rfl rfl⟩

/-- Closed-form run of `larfg_getPerfData` when both cold calls succeed.
Shared helper for the claims below. -/
theorem larfg_getPerfData_success_run (hot_calls profile : Int) (perf : Bool)
    (devStatus : ℕ → RocblasStatus) (elapsed : ℕ → ℚ) (gpu0 : ℚ)
    (hc0 : devStatus 0 = RocblasStatus.success)
    (hc1 : devStatus 1 = RocblasStatus.success) :
    larfg_getPerfData hot_calls profile perf devStatus elapsed gpu0 =
      ((if perf then [] else [PerfEvent.initData true false, PerfEvent.hostCall]) ++
        [PerfEvent.initData true false] ++ coldIter ++ coldIter ++
        (if profile > 0 then [PerfEvent.profileSetup] else []) ++
        hotTrace hot_calls.toNat,
       PerfResult.completed
         (ieeeDiv (gpu0 + ∑ j ∈ Finset.range hot_calls.toNat, elapsed j)
           (hot_calls : ℚ))) := by
  simp [larfg_getPerfData, hc0, hc1, larfg_perfHotCalls_fst, larfg_perfHotCalls_snd]

/-- C5: with `hot_calls = 10` and succeeding warm-up calls, the Performance
Timer invokes the device routine exactly 10 timed times after exactly 2
untimed warm-up invocations, performs a device re-mirror immediately before
every device invocation, reports the mean latency as the sum of the
per-call elapsed times divided by the hot-call count, and — when every
per-call elapsed time is positive — that mean is strictly positive. -/
theorem larfg_getPerfData_ten_hot_calls (profile : Int) (perf : Bool)
    (devStatus : ℕ → RocblasStatus) (elapsed : ℕ → ℚ)
    (hc0 : devStatus 0 = RocblasStatus.success)
    (hc1 : devStatus 1 = RocblasStatus.success)
    (hpos : ∀ i, i < 10 → 0 < elapsed i) :
    ((larfg_getPerfData 10 profile perf devStatus elapsed 0).1 =
      (if perf then [] else [PerfEvent.initData true false, PerfEvent.hostCall]) ++
        [PerfEvent.initData true false] ++ coldIter ++ coldIter ++
        (if profile > 0 then [PerfEvent.profileSetup] else []) ++ hotTrace 10) ∧
    ((larfg_getPerfData 10 profile perf devStatus elapsed 0).1.countP
        PerfEvent.isTimedDeviceCall = 10) ∧
    ((larfg_getPerfData 10 profile perf devStatus elapsed 0).1.countP
        PerfEvent.isUntimedDeviceCall = 2) ∧
    mirrorBeforeCalls (larfg_getPerfData 10 profile perf devStatus elapsed 0).1 = true ∧
    (larfg_getPerfData 10 profile perf devStatus elapsed 0).2 =
      PerfResult.completed (some ((∑ i ∈ Finset.range 10, elapsed i) / 10)) ∧
    0 < (∑ i ∈ Finset.range 10, elapsed i) / 10 := by
  rw [larfg_getPerfData_success_run 10 profile perf devStatus elapsed 0 hc0 hc1]
  have hsum : (0 : ℚ) < ∑ i ∈ Finset.range 10, elapsed i :=
    Finset.sum_pos (fun i hi => hpos i (Finset.mem_range.mp hi))
      ⟨0, Finset.mem_range.mpr (by norm_num)⟩
  refine ⟨rfl, ?_, ?_, ?_, ?_, ?_⟩
  · rcases perf <;> by_cases hp : profile > 0 <;> simp [hp] <;> decide
  · rcases perf <;> by_cases hp : profile > 0 <;> simp [hp] <;> decide
  · rcases perf <;> by_cases hp : profile > 0 <;> simp [hp] <;> decide
  · show PerfResult.completed _ = _
    rw [ieeeDiv, if_neg (by norm_num)]
    have h10 : (10 : Int).toNat = 10 := rfl
    rw [h10, zero_add]
    norm_num
  · exact div_pos hsum (by norm_num)

/-- Witness for C5 at a concrete input. -/
theorem larfg_getPerfData_ten_hot_calls_witness :
    ((fun (_ : ℕ) => RocblasStatus.success) 0 = RocblasStatus.success) ∧
    ((fun (_ : ℕ) => RocblasStatus.success) 1 = RocblasStatus.success) ∧
    (∀ i : ℕ, i < 10 → (0 : ℚ) < (fun (_ : ℕ) => (1 : ℚ)) i) ∧
    (((larfg_getPerfData 10 0 true (fun _ => RocblasStatus.success)
        (fun _ => (1 : ℚ)) 0).1 =
       [] ++ [PerfEvent.initData true false] ++ coldIter ++ coldIter ++ [] ++
         hotTrace 10) ∧
     ((larfg_getPerfData 10 0 true (fun _ => RocblasStatus.success)
        (fun _ => (1 : ℚ)) 0).1.countP PerfEvent.isTimedDeviceCall = 10) ∧
     ((larfg_getPerfData 10 0 true (fun _ => RocblasStatus.success)
        (fun _ => (1 : ℚ)) 0).1.countP PerfEvent.isUntimedDeviceCall = 2) ∧
     mirrorBeforeCalls (larfg_getPerfData 10 0 true (fun _ => RocblasStatus.success)
        (fun _ => (1 : ℚ)) 0).1 = true ∧
     (larfg_getPerfData 10 0 true (fun _ => RocblasStatus.success)
        (fun _ => (1 : ℚ)) 0).2 =
       PerfResult.completed (some ((∑ i ∈ Finset.range 10, (fun (_ : ℕ) => (1 : ℚ)) i) / 10)) ∧
     0 < (∑ i ∈ Finset.range 10, (fun (_ : ℕ) => (1 : ℚ)) i) / 10) :=
  ⟨rfl, rfl, fun _ _ => by norm_num,
    larfg_getPerfData_ten_hot_calls 0 true (fun _ => RocblasStatus.success)
      (fun _ => (1 : ℚ)) rfl rfl (fun _ _ => by norm_num)⟩

/-- C6 counterexample: in `larfg_getPerfData` the timed hot-loop invocation
of the device routine does not have its returned status checked — with one
hot call whose device invocation returns an internal error (only the two
warm-up invocations succeed), the trace contains an unchecked device call
and the run still completes normally instead of aborting. -/
theorem larfg_perf_hot_status_unchecked_cex :
    allDeviceCallsChecked
        (larfg_getPerfData 1 0 true
          (fun k => if k ≤ 1 then RocblasStatus.success else RocblasStatus.internal_error)
          (fun _ => (1 : ℚ)) 0).1 = false ∧
    (larfg_getPerfData 1 0 true
          (fun k => if k ≤ 1 then RocblasStatus.success else RocblasStatus.internal_error)
          (fun _ => (1 : ℚ)) 0).2 = PerfResult.completed (some 1) := by
  constructor
  · decide
  · rw [larfg_getPerfData_success_run 1 0 true _ _ 0 (by decide) (by decide)]
    show PerfResult.completed _ = _
    rw [ieeeDiv, if_neg (by norm_num)]
    have h1 : (1 : Int).toNat = 1 := rfl
    rw [h1]
    norm_num

/-- C6 amended: the returned status of the device routine is checked — with
an unexpected status aborting the test case — for the warm-up (cold)
invocations of the Performance Timer and for the correctness invocation in
`larfg_getError`, but the `hot_calls` timed invocations inside the hot-call
loop have their statuses discarded (checked exactly for untimed calls). -/
theorem larfg_device_status_checked_except_hot_loop (hot_calls profile : Int)
    (perf : Bool) (devStatus : ℕ → RocblasStatus) (elapsed : ℕ → ℚ) (gpu0 : ℚ)
    (dev : DevLarfg) (cblas : HostLarfg) (n inc : Int) (a : ℚ) (x : List ℚ)
    (hs : HostState) (ds : DeviceState) :
    ((larfg_getPerfData hot_calls profile perf devStatus elapsed gpu0).1.all
        checkedIffUntimed = true) ∧
    (devStatus 0 ≠ RocblasStatus.success →
      (larfg_getPerfData hot_calls profile perf devStatus elapsed gpu0).2 =
        PerfResult.aborted (devStatus 0)) ∧
    (devStatus 0 = RocblasStatus.success → devStatus 1 ≠ RocblasStatus.success →
      (larfg_getPerfData hot_calls profile perf devStatus elapsed gpu0).2 =
        PerfResult.aborted (devStatus 1)) ∧
    ((dev n a x inc).1 ≠ RocblasStatus.success →
      larfg_getError dev cblas n inc a x hs ds = Except.error (dev n a x inc).1) := by
  refine ⟨?_, ?_, ?_, ?_⟩
  · by_cases h0 : devStatus 0 = RocblasStatus.success
    · by_cases h1 : devStatus 1 = RocblasStatus.success
      · rw [larfg_getPerfData_success_run hot_calls profile perf devStatus elapsed gpu0 h0 h1]
        rcases perf <;> by_cases hp : profile > 0 <;>
          simp [hp, coldIter, checkedIffUntimed, hotTrace_all_checkedIffUntimed]
      · rcases perf <;>
          simp [larfg_getPerfData, h0, h1, coldIter, checkedIffUntimed]
    · rcases perf <;>
        simp [larfg_getPerfData, h0, coldIter, checkedIffUntimed]
  · intro h0
    simp [larfg_getPerfData, h0]
  · intro h0 h1
    simp [larfg_getPerfData, h0, h1]
  · intro h
    simp [larfg_getError, larfg_initData, h]

/-- Witness for the amended C6 at concrete inputs: a failing first warm-up
call aborts the Performance Timer, a failing device call aborts
`larfg_getError`, and every device call in an aborted trace is checked. -/
theorem larfg_device_status_checked_except_hot_loop_witness :
    ((larfg_getPerfData 3 0 true (fun _ => RocblasStatus.internal_error)
        (fun _ => (1 : ℚ)) 0).1.all checkedIffUntimed = true) ∧
    ((larfg_getPerfData 3 0 true (fun _ => RocblasStatus.internal_error)
        (fun _ => (1 : ℚ)) 0).2 = PerfResult.aborted RocblasStatus.internal_error) ∧
    larfg_getError (fun _ a x _ => (RocblasStatus.internal_error, ⟨a, x, 0⟩))
        (fun _ a x _ => ⟨a, x, 0⟩) 2 1 5 [7] ⟨0, [], [], 0⟩ ⟨0, [], 0⟩ =
      Except.error RocblasStatus.internal_error := by
  have h := larfg_device_status_checked_except_hot_loop 3 0 true
      (fun _ => RocblasStatus.internal_error) (fun _ => (1 : ℚ)) 0
      (fun _ a x _ => (RocblasStatus.internal_error, ⟨a, x, 0⟩))
      (fun _ a x _ => ⟨a, x, 0⟩) 2 1 5 [7] ⟨0, [], [], 0⟩ ⟨0, [], 0⟩
  exact ⟨h.1, h.2.1 (by decide), h.2.2.2 (by decide)⟩

/-- C10: `larfg_getPerfData` divides the accumulated time by `hot_calls`
with no positivity guard: with `hot_calls = 0` the timed loop executes zero
times and the final division is `0 / 0`, so the reported mean latency is
not a well-defined duration (modelled as `none`); for every
`hot_calls ≥ 1` the division is well-defined. -/
theorem larfg_getPerfData_hot_calls_division (profile : Int) (perf : Bool)
    (devStatus : ℕ → RocblasStatus) (elapsed : ℕ → ℚ)
    (hc0 : devStatus 0 = RocblasStatus.success)
    (hc1 : devStatus 1 = RocblasStatus.success) :
    ((larfg_getPerfData 0 profile perf devStatus elapsed 0).1.countP
        PerfEvent.isTimedDeviceCall = 0) ∧
    ((larfg_getPerfData 0 profile perf devStatus elapsed 0).2 =
        PerfResult.completed none) ∧
    (∀ hot_calls : Int, 1 ≤ hot_calls →
      ∃ q, (larfg_getPerfData hot_calls profile perf devStatus elapsed 0).2 =
        PerfResult.completed (some q)) := by
  refine ⟨?_, ?_, ?_⟩
  · rw [larfg_getPerfData_success_run 0 profile perf devStatus elapsed 0 hc0 hc1]
    rcases perf <;> by_cases hp : profile > 0 <;>
      simp [hp, coldIter, hotTrace, PerfEvent.isTimedDeviceCall]
  · rw [larfg_getPerfData_success_run 0 profile perf devStatus elapsed 0 hc0 hc1]
    show PerfResult.completed _ = _
    rw [ieeeDiv, if_pos (by norm_num)]
  · intro hot_calls hge
    rw [larfg_getPerfData_success_run hot_calls profile perf devStatus elapsed 0 hc0 hc1]
    have hne : ((hot_calls : ℚ)) ≠ 0 := by
      have hpos : (0 : Int) < hot_calls := by omega
      exact Int.cast_ne_zero.mpr hpos.ne'
    exact ⟨_, by rw [ieeeDiv, if_neg hne]⟩

/-- Witness for C10 at a concrete input. -/
theorem larfg_getPerfData_hot_calls_division_witness :
    ((fun (_ : ℕ) => RocblasStatus.success) 0 = RocblasStatus.success) ∧
    ((larfg_getPerfData 0 2 false (fun _ => RocblasStatus.success)
        (fun _ => (1 : ℚ)) 0).2 = PerfResult.completed none) ∧
    (∃ q, (larfg_getPerfData 4 2 false (fun _ => RocblasStatus.success)
        (fun _ => (1 : ℚ)) 0).2 = PerfResult.completed (some q)) := by
  have h := larfg_getPerfData_hot_calls_division 2 false
      (fun _ => RocblasStatus.success) (fun _ => (1 : ℚ)) rfl rfl
  exact ⟨rfl, h.2.1, h.2.2 4 (by norm_num)⟩

/-- C2: for every declared-invalid size (`n < 0` or `inc < 1`, including
`inc = 0`), `testing_larfg` asserts the device routine returns the
invalid-size status and terminates immediately: its trace is exactly that
assertion (plus the invalid-size bench report in timing mode) — in
particular no buffer allocation, no correctness phase, no performance
phase, no unit check and no bench output occur (and hence no data
generation, which only happens inside those phases). -/
theorem testing_larfg_invalid_size (argus : Arguments) (reallocOnDemand : Bool)
    (h : argus.n < 0 ∨ argus.incx < 1) :
    testing_larfg argus reallocOnDemand =
      TestEvent.expectDevice false argus.n true true argus.incx true
          RocblasStatus.invalid_size ::
        (if argus.timing then [TestEvent.benchInformInvalidSize] else []) ∧
    (testing_larfg argus reallocOnDemand).all
      (fun e => !(e.isAlloc || e.isMeasurement)) = true := by
  have hb : (argus.n < 0 || argus.incx < 1) = true := by
    rcases h with h | h <;> simp [h]
  constructor
  · simp [testing_larfg, hb]
  · cases ht : argus.timing <;>
      simp [testing_larfg, hb, ht, TestEvent.isAlloc, TestEvent.isMeasurement]

/-- Witness for C2 at a concrete input (`n = 3`, `inc = 0`, timing mode). -/
theorem testing_larfg_invalid_size_witness :
    ((3 : Int) < 0 ∨ (0 : Int) < 1) ∧
    (testing_larfg ⟨3, 0, 10, false, false, true, false, false⟩ true =
      [TestEvent.expectDevice false 3 true true 0 true RocblasStatus.invalid_size,
       TestEvent.benchInformInvalidSize] ∧
     (testing_larfg ⟨3, 0, 10, false, false, true, false, false⟩ true).all
       (fun e => !(e.isAlloc || e.isMeasurement)) = true) := by
  refine ⟨Or.inr (by norm_num), ?_⟩
  have h := testing_larfg_invalid_size ⟨3, 0, 10, false, false, true, false, false⟩
    true (Or.inr (by norm_num))
  simpa using h

/-- C1 counterexample: two test cases with `n = 0` for which `testing_larfg`
never asserts a successful device call — with `inc = 0` the invalid-size
check fires instead (asserting invalid-size, not success), and in
memory-query mode the case terminates after the size query without any
status assertion. -/
theorem testing_larfg_quick_return_cex :
    ((testing_larfg ⟨0, 0, 10, false, false, false, false, false⟩ true).all
      (fun e => !e.isSuccessAssert) = true) ∧
    ((testing_larfg ⟨0, 1, 10, false, false, false, false, true⟩ true).all
      (fun e => !e.isSuccessAssert) = true) := by
  constructor <;> decide

/-- C1 amended: for every test case with `n = 0`, a valid increment
`inc ≥ 1`, and not in memory-query mode, `testing_larfg` allocates
placeholder capacity-1 buffers, calls the device routine on them and
asserts it returns success, then terminates the test case without running
any correctness or performance measurement. -/
theorem testing_larfg_quick_return (argus : Arguments) (reallocOnDemand : Bool)
    (hn : argus.n = 0) (hinc : 1 ≤ argus.incx) (hmq : argus.mem_query = false) :
    testing_larfg argus reallocOnDemand =
      (if reallocOnDemand then [] else [TestEvent.memQuery]) ++
      TestEvent.alloc 1 argus.incx
          (if argus.unit_check || argus.norm_check then 1 else 0)
          (if argus.unit_check || argus.norm_check then argus.incx else 0) ::
        TestEvent.expectDevice false 0 false false argus.incx false
          RocblasStatus.success ::
        (if argus.timing then [TestEvent.benchInformQuickReturn] else []) ∧
    (testing_larfg argus reallocOnDemand).all (fun e => !e.isMeasurement) = true := by
  have h1 : ¬ (argus.n < 0) := by omega
  have h2 : ¬ (argus.incx < 1) := by omega
  constructor
  · cases hr : reallocOnDemand <;> simp [testing_larfg, hn, hmq, h1, h2, hr]
  · cases hr : reallocOnDemand <;> cases ht : argus.timing <;>
      simp [testing_larfg, hn, hmq, h1, h2, hr, ht, TestEvent.isMeasurement]

/-- Witness for the amended C1 at a concrete input
(`n = 0`, `inc = 2`, unit check and timing requested). -/
theorem testing_larfg_quick_return_witness :
    ((⟨0, 2, 10, true, false, true, false, false⟩ : Arguments).n = 0) ∧
    (1 : Int) ≤ 2 ∧
    ((⟨0, 2, 10, true, false, true, false, false⟩ : Arguments).mem_query = false) ∧
    (testing_larfg ⟨0, 2, 10, true, false, true, false, false⟩ true =
      [TestEvent.alloc 1 2 1 2,
       TestEvent.expectDevice false 0 false false 2 false RocblasStatus.success,
       TestEvent.benchInformQuickReturn] ∧
     (testing_larfg ⟨0, 2, 10, true, false, true, false, false⟩ true).all
       (fun e => !e.isMeasurement) = true) := by
  refine ⟨rfl, by norm_num, rfl, ?_⟩
  have h := testing_larfg_quick_return ⟨0, 2, 10, true, false, true, false, false⟩
    true rfl (by norm_num) rfl
  simpa using h

/-- C7: starting from the fixed small valid configuration of
`testing_larfg_bad_arg` (`n = 2`, `inc = 1`, capacity-1 buffers), varying
one argument at a time to an invalid value yields the documented error
classification against the spec-modelled device routine: a null handle
yields the invalid-handle status and a null `alpha`, `x` or `tau` pointer
each yields the invalid-pointer status; every assertion of
`larfg_checkBadArgs` passes. -/
theorem larfg_bad_arg_classification :
    (∀ c ∈ testing_larfg_bad_arg,
      rocsolver_larfg_status c.handleNull c.n c.alphaNull c.xNull c.inc c.tauNull
        = c.expected) ∧
    rocsolver_larfg_status true 2 false false 1 false = RocblasStatus.invalid_handle ∧
    rocsolver_larfg_status false 2 true false 1 false = RocblasStatus.invalid_pointer ∧
    rocsolver_larfg_status false 2 false true 1 false = RocblasStatus.invalid_pointer ∧
    rocsolver_larfg_status false 2 false false 1 true = RocblasStatus.invalid_pointer ∧
    testing_larfg_bad_arg.all BadArgCheck.passes = true := by
  decide

/-- C8: for a fixed element type (machine epsilon `eps ≥ 0`), the error
tolerance used by the unit check is non-decreasing in the problem size, so
any error value accepted at the bound for `n1` is also accepted at the
bound for `n2 ≥ n1`. -/
theorem test_tolerance_monotone (eps : ℚ) (n1 n2 : Int)
    (heps : 0 ≤ eps) (_h1 : 1 ≤ n1) (h12 : n1 ≤ n2) :
    test_tolerance eps n1 ≤ test_tolerance eps n2 ∧
    ∀ err : ℚ, unit_check_accepts eps n1 err → unit_check_accepts eps n2 err := by
  have hcast : ((n1 : ℚ)) ≤ ((n2 : ℚ)) := by exact_mod_cast h12
  have hmono : test_tolerance eps n1 ≤ test_tolerance eps n2 :=
    mul_le_mul_of_nonneg_right hcast heps
  exact ⟨hmono, fun err hacc => le_trans hacc hmono⟩

/-- Witness for C8 at a concrete input. -/
theorem test_tolerance_monotone_witness :
    (0 : ℚ) ≤ 1 / 2 ∧ (1 : Int) ≤ 3 ∧ (3 : Int) ≤ 5 ∧
    (test_tolerance (1 / 2) 3 ≤ test_tolerance (1 / 2) 5 ∧
     ∀ err : ℚ, unit_check_accepts (1 / 2) 3 err → unit_check_accepts (1 / 2) 5 err) :=
  ⟨by norm_num, by norm_num, by norm_num,
    test_tolerance_monotone (1 / 2) 3 5 (by norm_num) (by norm_num) (by norm_num)⟩

end RocsolverLarfgTest
